import Mathlib

/-!
Verification development for an e-commerce monorepo (web storefront, admin
dashboard, ORM-backed product API, checkout forms).

The development shallowly embeds the parts of the code base that the
specification speaks about:

* the shopping-cart store (`packages/web-client/src/hooks/useCart.ts`):
  item list operations, derived totals, and the persistence projection;
* the login validation schema (shared auth library, zod `LoginSchema`);
* the product API's filter builder and paginated listing
  (`buildProductQuery` / `getProducts` in the products router);
* the multi-step checkout form (`CheckoutForm`): step navigation and the
  order-submission handler.

JavaScript numbers are modelled as exact rationals (`ℚ`); quantities and
database integer columns as `Int`/`Nat`; `undefined`-able values as
`Option`; the fallible order-creation request as an explicit response
datatype.  JavaScript truthiness tests (`if (x)`) are translated exactly:
`0` and the empty string are falsy.
-/

namespace Cart

/-- One entry of the cart's `items` list (`CartItem` in `useCart.ts`). -/
structure CartItem where
  id : String
  name : String
  price : ℚ
  quantity : Int
  image : Option String
  sku : Option String
  attributes : List (String × String)
deriving DecidableEq, Repr

/-- Argument of `addItem`: a `CartItem` without `quantity`, plus an optional
`quantity` field (`Omit<CartItem, 'quantity'> & { quantity?: number }`). -/
structure AddItemInput where
  id : String
  name : String
  price : ℚ
  image : Option String
  sku : Option String
  attributes : List (String × String)
  quantity : Option Int
deriving DecidableEq, Repr

/-- The zustand store state: the `items` list and the `isOpen` UI flag. -/
structure CartState where
  items : List CartItem
  isOpen : Bool
deriving DecidableEq, Repr

/-- The store's initial state: `items: [], isOpen: false`. -/
def initialCartState : CartState := { items := [], isOpen := false }

/-- Resolution of the optional quantity, `item.quantity || 1` — JavaScript `||` falls back to `1`
when the field is `undefined` or `0` (falsy). -/
def addQuantity (oq : Option Int) : Int :=
  match oq with
  | some q => if q == 0 then 1 else q
  | none => 1

/-- Operation `addItem`: looks up `items.findIndex((i) => i.id === item.id)`; when found
it bumps that entry's quantity in place, otherwise it appends the new item
(with resolved quantity) and opens the cart. -/
def addItem (s : CartState) (item : AddItemInput) : CartState :=
  let q := addQuantity item.quantity
  match s.items.findIdx? (fun i => i.id == item.id) with
  | some idx =>
      { s with items := List.modify (fun i => { i with quantity := i.quantity + q }) idx s.items }
  | none =>
      { items := s.items ++
          [{ id := item.id, name := item.name, price := item.price, quantity := q,
             image := item.image, sku := item.sku, attributes := item.attributes }],
        isOpen := true }

/-- Operation `updateItem(id, quantity)`: for `quantity <= 0` it filters the entry out
(like `removeItem`), otherwise it maps the matching entry to the new
quantity. -/
def updateItem (s : CartState) (id : String) (quantity : Int) : CartState :=
  if quantity ≤ 0 then
    { s with items := s.items.filter (fun item => item.id != id) }
  else
    { s with items :=
        s.items.map (fun item => if item.id == id then { item with quantity := quantity } else item) }

/-- Operation `removeItem(id)`: `items.filter((item) => item.id !== id)`. -/
def removeItem (s : CartState) (id : String) : CartState :=
  { s with items := s.items.filter (fun item => item.id != id) }

/-- Operation `clearCart()`: `set({ items: [] })`. -/
def clearCart (s : CartState) : CartState :=
  { s with items := [] }

/-- Operation `openCart()`: `set({ isOpen: true })`. -/
def openCart (s : CartState) : CartState :=
  { s with isOpen := true }

/-- Operation `closeCart()`: `set({ isOpen: false })`. -/
def closeCart (s : CartState) : CartState :=
  { s with isOpen := false }

/-- Operation `toggleCart()`: `set((state) => ({ isOpen: !state.isOpen }))`. -/
def toggleCart (s : CartState) : CartState :=
  { s with isOpen := !s.isOpen }

/-- Utility `getItemsCount()`: `items.reduce((count, item) => count + item.quantity, 0)`. -/
def getItemsCount (items : List CartItem) : Int :=
  items.foldl (fun count item => count + item.quantity) 0

/-- Utility `getSubtotal()`:
`items.reduce((total, item) => total + item.price * item.quantity, 0)`. -/
def getSubtotal (items : List CartItem) : ℚ :=
  items.foldl (fun total item => total + item.price * (item.quantity : ℚ)) 0

/-- Constant `shippingRate = 10` in `useCartTotals`. -/
def shippingRate : ℚ := 10

/-- Constant `taxRate = 0.07` in `useCartTotals` (exact rational `7/100`). -/
def taxRate : ℚ := 0.07

/-- Result record of the `useCartTotals` hook. -/
structure CartTotals where
  subtotal : ℚ
  shipping : ℚ
  tax : ℚ
  total : ℚ
  itemsCount : Int
deriving DecidableEq, Repr

/-- Hook `useCartTotals`: `shipping = items.length > 0 ? shippingRate : 0`,
`tax = subtotal * taxRate`, `total = subtotal + shipping + tax`. -/
def useCartTotals (s : CartState) : CartTotals :=
  let subtotal := getSubtotal s.items
  let shipping : ℚ := if s.items.length > 0 then shippingRate else 0
  let tax := subtotal * taxRate
  let total := subtotal + shipping + tax
  { subtotal := subtotal, shipping := shipping, tax := tax, total := total,
    itemsCount := getItemsCount s.items }

/-- The persisted value: `partialize: (state) => ({ items: state.items })`
keeps only the `items` field, never the `isOpen` UI flag. -/
structure PersistedCart where
  items : List CartItem
deriving DecidableEq, Repr

/-- Projection `partialize` of the zustand `persist` configuration. -/
def partialize (s : CartState) : PersistedCart :=
  { items := s.items }

/-- The cart-store operations, for reasoning about operation sequences. -/
inductive CartOp where
  | add (item : AddItemInput)
  | update (id : String) (quantity : Int)
  | remove (id : String)
  | clear
deriving DecidableEq, Repr

/-- Apply one store operation. -/
def applyOp (s : CartState) : CartOp → CartState
  | .add item => addItem s item
  | .update id q => updateItem s id q
  | .remove id => removeItem s id
  | .clear => clearCart s

/-- Run a sequence of store operations from the initial (empty) cart. -/
def applyOps (ops : List CartOp) : CartState :=
  ops.foldl applyOp initialCartState

end Cart

namespace Auth

/-- Characters allowed anywhere in the local part of zod's email pattern
(case-insensitive `[A-Z0-9_'+\-.]`). -/
def isLocalChar (c : Char) : Bool :=
  c.isAlpha || c.isDigit || c == '_' || c == '\'' || c == '+' || c == '-' || c == '.'

/-- Characters allowed as the last character of the local part
(`[A-Z0-9_+\-]`: no dot, no apostrophe). -/
def isLocalEnd (c : Char) : Bool :=
  c.isAlpha || c.isDigit || c == '_' || c == '+' || c == '-'

/-- First character of a domain label: `[A-Z0-9]`. -/
def isLabelStart (c : Char) : Bool :=
  c.isAlpha || c.isDigit

/-- Subsequent characters of a domain label: `[A-Z0-9\-]`. -/
def isLabelChar (c : Char) : Bool :=
  c.isAlpha || c.isDigit || c == '-'

/-- The negative lookahead `(?!.*\.\.)`: no two consecutive dots. -/
def noDoubleDot : List Char → Bool
  | [] => true
  | [_] => true
  | a :: b :: rest => !(a == '.' && b == '.') && noDoubleDot (b :: rest)

/-- Split a character list at every occurrence of `sep` (the char-level
counterpart of `String.split` on a single separator; always returns at least
one, possibly empty, part). -/
def splitOnChar (sep : Char) : List Char → List (List Char)
  | [] => [[]]
  | c :: rest =>
      match splitOnChar sep rest with
      | [] => if c == sep then [[], []] else [[c]]
      | h :: t => if c == sep then [] :: h :: t else (c :: h) :: t

/-- Local part of zod's pattern: `(?!\.)` plus
`([A-Z0-9_'+\-.]*)[A-Z0-9_+\-]` — nonempty, every character from the local
character class, not starting with a dot, no double dot, and the final
character from the restricted end class. -/
def localOk : List Char → Bool
  | [] => false
  | c :: rest =>
      c != '.' && (c :: rest).all isLocalChar && noDoubleDot (c :: rest) &&
        isLocalEnd ((c :: rest).getLastD '.')

/-- One non-final domain label: `[A-Z0-9][A-Z0-9\-]*`. -/
def labelOk : List Char → Bool
  | [] => false
  | c :: rest => isLabelStart c && rest.all isLabelChar

/-- The final label (TLD): `[A-Z]{2,}`. -/
def tldOk (cs : List Char) : Bool :=
  decide (2 ≤ cs.length) && cs.all Char.isAlpha

/-- Domain part of zod's pattern: `([A-Z0-9][A-Z0-9\-]*\.)+[A-Z]{2,}` — at
least one dot-terminated label followed by an alphabetic TLD. -/
def domainOk (cs : List Char) : Bool :=
  let parts := splitOnChar '.' cs
  decide (2 ≤ parts.length) && parts.dropLast.all labelOk && tldOk (parts.getLastD [])

/-- Validator `z.string().email()` as implemented by zod's email regular expression
`/^(?!\.)(?!.*\.\.)([A-Z0-9_'+\-.]*)[A-Z0-9_+\-]@([A-Z0-9][A-Z0-9\-]*\.)+[A-Z]{2,}$/i`:
exactly one `@` (neither character class contains `@`), a valid local part
before it and a valid domain after it. -/
def zodEmailCheck (s : String) : Bool :=
  match splitOnChar '@' s.data with
  | [localPart, domainPart] => localOk localPart && domainOk domainPart
  | _ => false

/-- The value validated by `LoginSchema`: an `email` and a `password` field. -/
structure LoginInput where
  email : String
  password : String
deriving DecidableEq, Repr

/-- Schema `LoginSchema = z.object({ email: z.string().email(...), password:
z.string().min(8, ...) })`: validation succeeds exactly when both field
checks succeed. -/
def LoginSchemaCheck (input : LoginInput) : Bool :=
  zodEmailCheck input.email && decide (8 ≤ input.password.length)

/-- The login form's submission pipeline: `handleSubmit(onSubmit)` with
`resolver: zodResolver(LoginSchema)` invokes `onSubmit` with the form data
only when the schema validates; otherwise nothing is submitted. -/
def loginFormSubmit (input : LoginInput) : Option LoginInput :=
  if LoginSchemaCheck input then some input else none

end Auth

namespace Products

/-- Enumeration `sortBy: z.enum(["name", "price", "createdAt", "updatedAt"])`. -/
inductive SortBy where
  | name
  | price
  | createdAt
  | updatedAt
deriving DecidableEq, Repr

/-- Enumeration `sortOrder: z.enum(["asc", "desc"])`. -/
inductive SortOrder where
  | asc
  | desc
deriving DecidableEq, Repr

/-- A value of `productFilterSchema` (after zod parsing, so `sortBy`,
`sortOrder`, `page` and `perPage` carry their defaults). -/
structure ProductFilterInput where
  search : Option String
  categoryId : Option Int
  brandId : Option Int
  minPrice : Option ℚ
  maxPrice : Option ℚ
  has3DModel : Option Bool
  inStock : Option Bool
  sortBy : SortBy
  sortOrder : SortOrder
  page : Nat
  perPage : Nat
deriving DecidableEq, Repr

/-- The constraints `productFilterSchema` imposes on the numeric fields:
`minPrice`/`maxPrice` nonnegative, `page` positive, `perPage` between 1
and 100. -/
def validFilterInput (input : ProductFilterInput) : Prop :=
  (∀ q, input.minPrice = some q → 0 ≤ q) ∧
  (∀ q, input.maxPrice = some q → 0 ≤ q) ∧
  1 ≤ input.page ∧ 1 ≤ input.perPage ∧ input.perPage ≤ 100

instance (input : ProductFilterInput) : Decidable (validFilterInput input) := by
  unfold validFilterInput
  infer_instance

/-- The `Prisma.ProductWhereInput` value that `buildProductQuery` builds:
each optional clause is present (`some`) exactly when the corresponding
branch of the builder ran. -/
structure ProductWhere where
  isActive : Bool
  searchOr : Option String
  categoryId : Option Int
  brandId : Option Int
  priceGte : Option ℚ
  priceLte : Option ℚ
  model3dNotNull : Option Bool
  stockPositive : Option Bool
deriving DecidableEq, Repr

/-- Builder `buildProductQuery`: starts from `{ isActive: true }` and adds clauses
under JavaScript truthiness / `!== undefined` tests exactly as in the
source: `if (search)` (falsy for `undefined` and `""`), `if (categoryId)` /
`if (brandId)` (falsy for `undefined` and `0`), `!== undefined` for the
price bounds, `has3DModel` and `inStock`. -/
def buildProductQuery (input : ProductFilterInput) : ProductWhere :=
  { isActive := true,
    searchOr :=
      match input.search with
      | some s => if s == "" then none else some s
      | none => none,
    categoryId :=
      match input.categoryId with
      | some c => if c == 0 then none else some c
      | none => none,
    brandId :=
      match input.brandId with
      | some b => if b == 0 then none else some b
      | none => none,
    priceGte := input.minPrice,
    priceLte := input.maxPrice,
    model3dNotNull := input.has3DModel,
    stockPositive := input.inStock }

/-- One row of the `Product` table (the columns the filters and sorts
touch). -/
structure Product where
  id : String
  name : String
  description : Option String
  sku : String
  price : ℚ
  stock : Int
  categoryId : Option Int
  brandId : Option Int
  model3dId : Option String
  isActive : Bool
  createdAt : Nat
  updatedAt : Nat
deriving DecidableEq, Repr

/-- Does `pat` occur at the start of `hay`? -/
def startsWithChars : List Char → List Char → Bool
  | _, [] => true
  | [], _ :: _ => false
  | a :: hay, b :: pat => a == b && startsWithChars hay pat

/-- Does `pat` occur anywhere inside `hay`? -/
def hasSubChars : List Char → List Char → Bool
  | [], pat => pat.isEmpty
  | a :: hay, pat => startsWithChars (a :: hay) pat || hasSubChars hay pat

/-- Prisma `{ contains: pat, mode: "insensitive" }`: case-insensitive
substring containment. -/
def containsInsensitive (hay pat : String) : Bool :=
  hasSubChars (hay.data.map Char.toLower) (pat.data.map Char.toLower)

/-- The relational engine's reading of the built WHERE clause against one
row: the conjunction of all present clauses. The `searchOr` clause is the
`OR` over case-insensitive `contains` on `name`, `description` and `sku`
(a `null` description matches nothing). -/
def matchesWhere (w : ProductWhere) (p : Product) : Bool :=
  (p.isActive == w.isActive) &&
  (match w.searchOr with
   | none => true
   | some s =>
       containsInsensitive p.name s ||
       (match p.description with
        | some d => containsInsensitive d s
        | none => false) ||
       containsInsensitive p.sku s) &&
  (match w.categoryId with
   | none => true
   | some c => p.categoryId == some c) &&
  (match w.brandId with
   | none => true
   | some b => p.brandId == some b) &&
  (match w.priceGte with
   | none => true
   | some m => decide (m ≤ p.price)) &&
  (match w.priceLte with
   | none => true
   | some m => decide (p.price ≤ m)) &&
  (match w.model3dNotNull with
   | none => true
   | some b => if b then p.model3dId.isSome else p.model3dId.isNone) &&
  (match w.stockPositive with
   | none => true
   | some b => if b then decide (0 < p.stock) else p.stock == 0)

/-- Comparison key for `orderBy[sortBy]`. -/
def productKeyLe (sb : SortBy) (a b : Product) : Bool :=
  match sb with
  | .name => decide (a.name ≤ b.name)
  | .price => decide (a.price ≤ b.price)
  | .createdAt => decide (a.createdAt ≤ b.createdAt)
  | .updatedAt => decide (a.updatedAt ≤ b.updatedAt)

/-- Direction `orderBy[sortBy] = sortOrder`: ascending or descending by the key. -/
def productLe (sb : SortBy) (so : SortOrder) (a b : Product) : Bool :=
  match so with
  | .asc => productKeyLe sb a b
  | .desc => productKeyLe sb b a

/-- Ordering step of `findMany({ where, orderBy, skip, take })`. -/
def sortProducts (sb : SortBy) (so : SortOrder) (l : List Product) : List Product :=
  l.mergeSort (productLe sb so)

/-- The `pagination` object returned by `getProducts`. -/
structure PaginationMeta where
  page : Nat
  perPage : Nat
  totalCount : Nat
  totalPages : Nat
  hasNextPage : Bool
  hasPreviousPage : Bool
deriving DecidableEq, Repr

/-- Return value of `getProducts` (products plus pagination metadata). -/
structure GetProductsResult where
  products : List Product
  pagination : PaginationMeta
deriving DecidableEq, Repr

/-- Procedure `getProducts` over an explicit database table `db`:
`skip = (page - 1) * perPage`, `take = perPage`; `findMany` filters with
the built WHERE clause, sorts, then skips and takes; `count` counts the
matching rows; `totalPages = Math.ceil(totalCount / perPage)` (exact
natural-number ceiling division, as `perPage ≥ 1`);
`hasNextPage = page < totalPages`; `hasPreviousPage = page > 1`. -/
def getProducts (db : List Product) (input : ProductFilterInput) : GetProductsResult :=
  let skip := (input.page - 1) * input.perPage
  let whereClause := buildProductQuery input
  let matching := db.filter (matchesWhere whereClause)
  let products := ((sortProducts input.sortBy input.sortOrder matching).drop skip).take input.perPage
  let totalCount := matching.length
  let totalPages := (totalCount + input.perPage - 1) / input.perPage
  { products := products,
    pagination :=
      { page := input.page, perPage := input.perPage, totalCount := totalCount,
        totalPages := totalPages,
        hasNextPage := decide (input.page < totalPages),
        hasPreviousPage := decide (1 < input.page) } }

end Products

namespace Checkout

/-- Length of `steps`: shipping, billing, payment, review. -/
def stepsLength : Nat := 4

/-- The checkout form's navigation state. `currentStep` is the React state
of the same name; `validatedSteps` is a history variable recording every
step whose `methods.trigger(...)` call returned `true` during the run;
`submitted` records that `handleSubmit` was invoked. -/
structure FormState where
  currentStep : Nat
  validatedSteps : List Nat
  submitted : Bool
deriving DecidableEq, Repr

/-- Initial state, `useState(0)`: the form starts at step 0 with nothing validated. -/
def initialFormState : FormState :=
  { currentStep := 0, validatedSteps := [], submitted := false }

/-- The user-interaction events of the step navigation. `next valid` is a
click on Next/Place Order where the current step's `trigger` call returned
`valid`; `previous` is the Back button; `jump target` is a click on the
step-tab for index `target`. -/
inductive FormEvent where
  | next (valid : Bool)
  | previous
  | jump (target : Nat)
deriving DecidableEq, Repr

/-- Handler `handleNext`: validate the current step's fields; on success either
advance (`currentStep < steps.length - 1`) or call `handleSubmit` from the
final step; on failure do nothing. -/
def handleNext (s : FormState) (valid : Bool) : FormState :=
  if valid then
    if s.currentStep < stepsLength - 1 then
      { currentStep := s.currentStep + 1,
        validatedSteps := s.currentStep :: s.validatedSteps,
        submitted := s.submitted }
    else
      { currentStep := s.currentStep,
        validatedSteps := s.currentStep :: s.validatedSteps,
        submitted := true }
  else s

/-- Handler `handlePrevious`: `if (currentStep > 0) setCurrentStep(currentStep - 1)`. -/
def handlePrevious (s : FormState) : FormState :=
  if 0 < s.currentStep then { s with currentStep := s.currentStep - 1 } else s

/-- The step tabs: `onClick={() => index < currentStep && setCurrentStep(index)}`
with `disabled={index > currentStep}` — only already-completed steps are
reachable by jumping. -/
def jumpToStep (s : FormState) (target : Nat) : FormState :=
  if target < s.currentStep then { s with currentStep := target } else s

/-- Apply one navigation event. -/
def applyEvent (s : FormState) : FormEvent → FormState
  | .next v => handleNext s v
  | .previous => handlePrevious s
  | .jump t => jumpToStep s t

/-- Run the form from its initial state through a sequence of events. -/
def runForm (events : List FormEvent) : FormState :=
  events.foldl applyEvent initialFormState

/-- Outcome of the `fetch('/api/orders', ...)` call made by `handleSubmit`:
an ok response carrying `data.orderId`, a non-ok response (the code then
throws `new Error('Failed to create order')`), or a rejected
fetch/json promise. -/
inductive OrderResponse where
  | ok (orderId : String)
  | httpError
  | fetchError
deriving DecidableEq, Repr

/-- The observable outcome of one `handleSubmit` run: the cart items after
the attempt, the `orderId` state, whether `onSuccess` was called and where
the router navigated, whether the catch block logged to the console, and
the error message surfaced in the form UI — `CheckoutForm` declares no
error state and renders no error element, so the catch block (which only
calls `console.error`) leaves this `none` in every branch. -/
structure SubmitOutcome where
  cartItems : List Cart.CartItem
  orderId : Option String
  onSuccessCalled : Bool
  redirectedTo : Option String
  consoleErrorLogged : Bool
  formErrorMessage : Option String
  isSubmitting : Bool
deriving DecidableEq, Repr

/-- Default `successUrl` prop of `CheckoutForm`. -/
def successUrl : String := "/checkout/success"

/-- Handler `handleSubmit` of `CheckoutForm`, given the cart `items` and the
outcome of the order-creation request.  Success: `setOrderId`,
`clearCart()`, `onSuccess(data.orderId)`, redirect to
`successUrl?orderId=...`.  Failure (non-ok response or thrown error): the
catch block runs `console.error(...)` and nothing else; the cart, the
`orderId` state and the navigation are untouched and no message is shown
in the form.  `finally` resets `isSubmitting`. -/
def handleSubmit (items : List Cart.CartItem) (response : OrderResponse) : SubmitOutcome :=
  match response with
  | .ok oid =>
      { cartItems := [],
        orderId := some oid,
        onSuccessCalled := true,
        redirectedTo := some (successUrl ++ "?orderId=" ++ oid),
        consoleErrorLogged := false,
        formErrorMessage := none,
        isSubmitting := false }
  | .httpError =>
      { cartItems := items,
        orderId := none,
        onSuccessCalled := false,
        redirectedTo := none,
        consoleErrorLogged := true,
        formErrorMessage := none,
        isSubmitting := false }
  | .fetchError =>
      { cartItems := items,
        orderId := none,
        onSuccessCalled := false,
        redirectedTo := none,
        consoleErrorLogged := true,
        formErrorMessage := none,
        isSubmitting := false }

/-- An order-creation request outcome that is a failure. -/
def isFailure (response : OrderResponse) : Prop :=
  response = OrderResponse.httpError ∨ response = OrderResponse.fetchError

instance (response : OrderResponse) : Decidable (isFailure response) := by
  unfold isFailure
  infer_instance

end Checkout

namespace Cart

/-- A left fold that keeps adding `f` of each element equals the initial
accumulator plus the sum of the mapped list (shape of the JS `reduce`). -/
theorem foldl_add_map_sum (f : CartItem → ℚ) (a : ℚ) (l : List CartItem) :
    l.foldl (fun t i => t + f i) a = a + (l.map f).sum := by
  induction l generalizing a with
  | nil => simp
  | cons x xs ih => simp [ih, add_assoc]

/-- Constant `taxRate` is exactly seven hundredths. -/
theorem taxRate_eq : taxRate = 7 / 100 := by
  norm_num [taxRate]

end Cart

/-- C1: the cart total sums correctly — `getSubtotal` is the sum over all
items of price times quantity, and `useCartTotals` returns
`total = subtotal + shipping + tax` with `shipping` equal to 10 exactly
when the item list is non-empty (0 when empty) and `tax` equal to `0.07`
times the subtotal. -/
theorem cart_total_sums_correctly (s : Cart.CartState) :
    Cart.getSubtotal s.items = (s.items.map (fun i => i.price * (i.quantity : ℚ))).sum
    ∧ (Cart.useCartTotals s).total =
        (Cart.useCartTotals s).subtotal + (Cart.useCartTotals s).shipping + (Cart.useCartTotals s).tax
    ∧ (Cart.useCartTotals s).subtotal = Cart.getSubtotal s.items
    ∧ (Cart.useCartTotals s).shipping = (if s.items = [] then 0 else 10)
    ∧ (Cart.useCartTotals s).tax = (7 / 100 : ℚ) * (Cart.useCartTotals s).subtotal := by
  refine ⟨?_, ?_, ?_, ?_, ?_⟩
  · simpa using Cart.foldl_add_map_sum (fun i => i.price * (i.quantity : ℚ)) 0 s.items
  · rfl
  · rfl
  · obtain ⟨items, flag⟩ := s
    cases items with
    | nil => simp [Cart.useCartTotals]
    | cons x xs => simp [Cart.useCartTotals, Cart.shippingRate]
  · show Cart.getSubtotal s.items * Cart.taxRate = 7 / 100 * Cart.getSubtotal s.items
    rw [Cart.taxRate_eq, mul_comm]

/-- C7: cart persistence and UI-flag frame — the persisted value is exactly
the `items` field (it does not depend on, and cannot contain, the `isOpen`
UI flag), and `openCart`, `closeCart` and `toggleCart` leave the items list
unchanged. -/
theorem cart_persistence_frame (s t : Cart.CartState) :
    Cart.partialize s = { items := s.items }
    ∧ (s.items = t.items → Cart.partialize s = Cart.partialize t)
    ∧ (Cart.openCart s).items = s.items
    ∧ (Cart.closeCart s).items = s.items
    ∧ (Cart.toggleCart s).items = s.items := by
  refine ⟨rfl, ?_, rfl, rfl, rfl⟩
  intro h
  simp [Cart.partialize, h]

/-- Closed instance of `cart_persistence_frame`, discharging its hypothesis
on two concrete states that share the same items. -/
theorem cart_persistence_frame_witness :
    Cart.partialize { items := [], isOpen := true } = Cart.partialize { items := [], isOpen := false } :=
  (cart_persistence_frame { items := [], isOpen := true } { items := [], isOpen := false }).2.1 rfl

namespace Cart

/-- Modifying one entry's quantity never changes the list of ids. -/
theorem map_id_modify (q : Int) (idx : Nat) (l : List CartItem) :
    (List.modify (fun i => { i with quantity := i.quantity + q }) idx l).map (fun i => i.id)
      = l.map (fun i => i.id) := by
  apply List.ext_getElem?
  intro n
  simp only [List.getElem?_map, List.getElem?_modify]
  cases l[n]? with
  | none => rfl
  | some a =>
      simp only [Option.map_some, Option.map_eq_map]
      split <;> rfl

/-- Operation `addItem` preserves distinctness of the ids in the cart. -/
theorem addItem_ids_nodup (s : CartState) (item : AddItemInput)
    (h : (s.items.map (fun i => i.id)).Nodup) :
    ((addItem s item).items.map (fun i => i.id)).Nodup := by
  unfold addItem
  cases hf : s.items.findIdx? (fun i => i.id == item.id) with
  | some idx =>
      simpa [map_id_modify] using h
  | none =>
      have hnone := List.findIdx?_eq_none_iff.mp hf
      simp only [List.map_append, List.map_cons, List.map_nil]
      rw [List.nodup_append]
      refine ⟨h, List.nodup_singleton _, ?_⟩
      intro a ha hb
      simp only [List.mem_singleton] at hb
      obtain ⟨i, hi, hia⟩ := List.mem_map.mp ha
      have := hnone i hi
      rw [hia, hb] at this
      simp at this

/-- Operation `updateItem` preserves distinctness of the ids in the cart. -/
theorem updateItem_ids_nodup (s : CartState) (id : String) (q : Int)
    (h : (s.items.map (fun i => i.id)).Nodup) :
    ((updateItem s id q).items.map (fun i => i.id)).Nodup := by
  unfold updateItem
  split
  · exact ((List.filter_sublist s.items).map (fun i => i.id)).nodup h
  · rw [List.map_map]
    have : ∀ a ∈ s.items,
        ((fun i => i.id) ∘ fun item => if item.id == id then { item with quantity := q } else item) a
          = (fun i => i.id) a := by
      intro a _
      by_cases hc : a.id = id <;> simp [hc]
    rw [List.map_congr_left this]
    exact h

/-- Operation `removeItem` preserves distinctness of the ids in the cart. -/
theorem removeItem_ids_nodup (s : CartState) (id : String)
    (h : (s.items.map (fun i => i.id)).Nodup) :
    ((removeItem s id).items.map (fun i => i.id)).Nodup :=
  ((List.filter_sublist s.items).map (fun i => i.id)).nodup h

/-- Every cart operation preserves distinctness of the ids. -/
theorem applyOp_ids_nodup (s : CartState) (op : CartOp)
    (h : (s.items.map (fun i => i.id)).Nodup) :
    ((applyOp s op).items.map (fun i => i.id)).Nodup := by
  cases op with
  | add item => exact addItem_ids_nodup s item h
  | update id q => exact updateItem_ids_nodup s id q h
  | remove id => exact removeItem_ids_nodup s id h
  | clear => simp [applyOp, clearCart]

/-- Id-distinctness holds in every state reachable from the empty cart. -/
theorem applyOps_ids_nodup (ops : List CartOp) :
    ((applyOps ops).items.map (fun i => i.id)).Nodup := by
  suffices h : ∀ s : CartState, (s.items.map (fun i => i.id)).Nodup →
      (((ops.foldl applyOp s).items.map (fun i => i.id))).Nodup from
    h initialCartState (by simp [initialCartState])
  induction ops with
  | nil => intro s hs; simpa using hs
  | cons op rest ih =>
      intro s hs
      exact ih (applyOp s op) (applyOp_ids_nodup s op hs)

end Cart

/-- C2: the cart store is a plain key-by-id mapping — after every sequence
of store operations from the empty cart the item ids are pairwise distinct;
`addItem` on an id already in the cart (`findIndex` succeeds) merges into
the found entry, incrementing its quantity, keeping length and ids
unchanged (no duplicate entry); and `removeItem id` keeps exactly the
entries whose id differs from `id`. -/
theorem cart_key_by_id_mapping :
    (∀ ops : List Cart.CartOp, ((Cart.applyOps ops).items.map (fun i => i.id)).Nodup)
    ∧ (∀ (s : Cart.CartState) (item : Cart.AddItemInput) (idx : Nat),
        s.items.findIdx? (fun i => i.id == item.id) = some idx →
          (Cart.addItem s item).items.length = s.items.length
          ∧ (Cart.addItem s item).items.map (fun i => i.id) = s.items.map (fun i => i.id)
          ∧ ∀ k : Nat, (Cart.addItem s item).items[k]? =
              if idx = k
              then (fun i => { i with quantity := i.quantity + Cart.addQuantity item.quantity }) <$> s.items[k]?
              else s.items[k]?)
    ∧ (∀ (s : Cart.CartState) (id : String) (i : Cart.CartItem),
        i ∈ (Cart.removeItem s id).items ↔ i ∈ s.items ∧ i.id ≠ id) := by
  refine ⟨Cart.applyOps_ids_nodup, ?_, ?_⟩
  · intro s item idx hf
    unfold Cart.addItem
    rw [hf]
    refine ⟨List.length_modify _ _ _, Cart.map_id_modify _ _ _, ?_⟩
    intro k
    simp only [List.getElem?_modify]
    cases s.items[k]? with
    | none => split <;> rfl
    | some a =>
        simp only [Option.map_eq_map, Option.map_some]
        split <;> rfl
  · intro s id i
    simp [Cart.removeItem, List.mem_filter]

/-- Closed instance of `cart_key_by_id_mapping`: on a concrete one-item
cart, adding the same id again merges (ids unchanged) — the `findIndex`
hypothesis is discharged by evaluation. -/
theorem cart_key_by_id_mapping_witness :
    (Cart.addItem
        { items := [{ id := "p1", name := "Printer", price := 5, quantity := 1,
                      image := none, sku := none, attributes := [] }], isOpen := false }
        { id := "p1", name := "Printer", price := 5,
          image := none, sku := none, attributes := [], quantity := some 2 }).items.map (fun i => i.id)
      = ([{ id := "p1", name := "Printer", price := 5, quantity := 1,
            image := none, sku := none, attributes := [] }] : List Cart.CartItem).map (fun i => i.id) :=
  (cart_key_by_id_mapping.2.1
      { items := [{ id := "p1", name := "Printer", price := 5, quantity := 1,
                    image := none, sku := none, attributes := [] }], isOpen := false }
      { id := "p1", name := "Printer", price := 5,
        image := none, sku := none, attributes := [], quantity := some 2 }
      0 (by decide)).2.1

/-- C9: `updateItem` with a non-positive quantity produces exactly the same
state as `removeItem` for the same id; with a positive quantity it sets the
quantity of every entry carrying that id and leaves all other entries (and
the list shape) unchanged. -/
theorem updateItem_matches_removeItem (s : Cart.CartState) (id : String) (q : Int) :
    (q ≤ 0 → Cart.updateItem s id q = Cart.removeItem s id)
    ∧ (0 < q →
        (Cart.updateItem s id q).items.length = s.items.length
        ∧ ∀ k : Nat, (Cart.updateItem s id q).items[k]? =
            (fun i => if i.id == id then { i with quantity := q } else i) <$> s.items[k]?) := by
  constructor
  · intro hq
    simp [Cart.updateItem, Cart.removeItem, hq]
  · intro hq
    have hq' : ¬ q ≤ 0 := not_le.mpr hq
    constructor
    · simp [Cart.updateItem, hq']
    · intro k
      simp [Cart.updateItem, hq', List.getElem?_map]

/-- Closed instance of `updateItem_matches_removeItem` at a concrete cart,
discharging both hypotheses. -/
theorem updateItem_matches_removeItem_witness :
    Cart.updateItem { items := [], isOpen := false } "p1" 0 = Cart.removeItem { items := [], isOpen := false } "p1"
    ∧ (Cart.updateItem { items := [], isOpen := false } "p1" 2).items.length = 0 := by
  constructor
  · exact (updateItem_matches_removeItem { items := [], isOpen := false } "p1" 0).1 (by decide)
  · exact ((updateItem_matches_removeItem { items := [], isOpen := false } "p1" 2).2 (by decide)).1

/-- C5: `LoginSchema` validation fails exactly when the email does not pass
zod's email syntax check or the password is shorter than 8 characters, and
the form's submission pipeline hands data to `onSubmit` only when the
schema validates. -/
theorem login_form_rejects_invalid (input : Auth.LoginInput) :
    (Auth.LoginSchemaCheck input = false ↔
      (Auth.zodEmailCheck input.email = false ∨ input.password.length < 8))
    ∧ (∀ out, Auth.loginFormSubmit input = some out →
        Auth.LoginSchemaCheck input = true ∧ out = input) := by
  constructor
  · unfold Auth.LoginSchemaCheck
    cases h : Auth.zodEmailCheck input.email <;> simp [h, not_le]
  · intro out hout
    unfold Auth.loginFormSubmit at hout
    split at hout
    · rename_i hvalid
      exact ⟨hvalid, (Option.some_inj.mp hout).symm⟩
    · exact absurd hout (by simp)

/-- Closed instance of `login_form_rejects_invalid`: a concrete valid input
is submitted, and the hypothesis of the submission conjunct is discharged
by evaluation. -/
theorem login_form_rejects_invalid_witness :
    Auth.LoginSchemaCheck { email := "user@example.com", password := "password1" } = true :=
  ((login_form_rejects_invalid { email := "user@example.com", password := "password1" }).2
    { email := "user@example.com", password := "password1" } (by decide)).1

namespace Checkout

/-- A concrete cart item used to instantiate the checkout theorems. -/
def demoItem : Cart.CartItem :=
  { id := "p1", name := "Printer", price := 100, quantity := 1,
    image := none, sku := none, attributes := [] }

/-- Reachability invariant of the checkout step machine: the current step
is in range, every step strictly below the current one has been validated,
and once submission happened every step has been validated. -/
def FormInv (s : FormState) : Prop :=
  s.currentStep < stepsLength
  ∧ (∀ i, i < s.currentStep → i ∈ s.validatedSteps)
  ∧ (s.submitted = true → ∀ i, i < stepsLength → i ∈ s.validatedSteps)

/-- Reduction of `handleNext` with successful validation on a non-final
step. -/
theorem handleNext_true_lt (s : FormState) (h : s.currentStep < stepsLength - 1) :
    handleNext s true =
      { currentStep := s.currentStep + 1,
        validatedSteps := s.currentStep :: s.validatedSteps,
        submitted := s.submitted } := by
  simp [handleNext, h]

/-- Reduction of `handleNext` with successful validation on the final
step: it submits. -/
theorem handleNext_true_ge (s : FormState) (h : ¬ s.currentStep < stepsLength - 1) :
    handleNext s true =
      { currentStep := s.currentStep,
        validatedSteps := s.currentStep :: s.validatedSteps,
        submitted := true } := by
  simp [handleNext, h]

/-- Every navigation event preserves the step-machine invariant. -/
theorem applyEvent_inv (s : FormState) (e : FormEvent) (h : FormInv s) :
    FormInv (applyEvent s e) := by
  obtain ⟨h1, h2, h3⟩ := h
  cases e with
  | next v =>
      cases v with
      | false => exact ⟨h1, h2, h3⟩
      | true =>
          show FormInv (handleNext s true)
          by_cases hlt : s.currentStep < stepsLength - 1
          · rw [handleNext_true_lt s hlt]
            refine ⟨?_, ?_, ?_⟩
            · show s.currentStep + 1 < stepsLength
              omega
            · intro i hi
              have hi' : i < s.currentStep + 1 := hi
              rcases Nat.lt_succ_iff_lt_or_eq.mp hi' with hc | hc
              · exact List.mem_cons_of_mem _ (h2 i hc)
              · subst hc; exact List.mem_cons_self _ _
            · intro hsub i hilt
              exact List.mem_cons_of_mem _ (h3 hsub i hilt)
          · rw [handleNext_true_ge s hlt]
            refine ⟨h1, ?_, ?_⟩
            · intro i hi
              exact List.mem_cons_of_mem _ (h2 i hi)
            · intro _ i hilt
              have hilt' : i < stepsLength := hilt
              by_cases hi : i < s.currentStep
              · exact List.mem_cons_of_mem _ (h2 i hi)
              · have hstep : i = s.currentStep := by
                  have : stepsLength = 4 := rfl
                  omega
                subst hstep
                exact List.mem_cons_self _ _
  | previous =>
      show FormInv (handlePrevious s)
      unfold handlePrevious
      split
      · refine ⟨?_, ?_, h3⟩
        · show s.currentStep - 1 < stepsLength
          omega
        · intro i hi
          have hi' : i < s.currentStep - 1 := hi
          exact h2 i (by omega)
      · exact ⟨h1, h2, h3⟩
  | jump t =>
      show FormInv (jumpToStep s t)
      unfold jumpToStep
      split
      · rename_i hlt
        refine ⟨?_, ?_, h3⟩
        · show t < stepsLength
          omega
        · intro i hi
          have hi' : i < t := hi
          exact h2 i (by omega)
      · exact ⟨h1, h2, h3⟩

/-- The invariant holds in every state reachable from the initial form
state. -/
theorem runForm_inv (events : List FormEvent) : FormInv (runForm events) := by
  suffices h : ∀ s : FormState, FormInv s → FormInv (events.foldl applyEvent s) from
    h initialFormState ⟨by simp [initialFormState, stepsLength], by simp [initialFormState], by simp [initialFormState]⟩
  induction events with
  | nil => intro s hs; simpa using hs
  | cons e rest ih =>
      intro s hs
      exact ih (applyEvent s e) (applyEvent_inv s e hs)

end Checkout

/-- C8: the checkout form validates steps and submits sequentially — in
every state reachable from step 0: the step stays in range; `handleNext`
does nothing when validation fails and advances by exactly one (without
submitting) when it succeeds on a non-final step; `handlePrevious`
decreases the step by exactly one and never below 0; the step tabs jump
only to strictly earlier (already completed) steps; submission is
triggered only by a validated `handleNext` on the final (review) step; and
once submitted, every step's validation has passed. -/
theorem checkout_step_machine (evs : List Checkout.FormEvent) (s : Checkout.FormState)
    (hs : Checkout.runForm evs = s) :
    s.currentStep < Checkout.stepsLength
    ∧ Checkout.handleNext s false = s
    ∧ (s.currentStep < Checkout.stepsLength - 1 →
        (Checkout.handleNext s true).currentStep = s.currentStep + 1
        ∧ (Checkout.handleNext s true).submitted = s.submitted)
    ∧ (Checkout.handlePrevious s).currentStep = s.currentStep - 1
    ∧ (∀ t, s.currentStep ≤ t → Checkout.jumpToStep s t = s)
    ∧ (∀ t, t < s.currentStep →
        (Checkout.jumpToStep s t).currentStep = t
        ∧ (Checkout.jumpToStep s t).submitted = s.submitted)
    ∧ (∀ v, (Checkout.handleNext s v).submitted = true →
        s.submitted = true ∨ (v = true ∧ s.currentStep = Checkout.stepsLength - 1))
    ∧ (s.submitted = true → ∀ i, i < Checkout.stepsLength → i ∈ s.validatedSteps) := by
  obtain ⟨h1, _, h3⟩ : Checkout.FormInv s := hs ▸ Checkout.runForm_inv evs
  refine ⟨h1, rfl, ?_, ?_, ?_, ?_, ?_, h3⟩
  · intro hlt
    constructor <;> simp [Checkout.handleNext, hlt]
  · unfold Checkout.handlePrevious
    split
    · show s.currentStep - 1 = s.currentStep - 1
      rfl
    · show s.currentStep = s.currentStep - 1
      omega
  · intro t ht
    unfold Checkout.jumpToStep
    rw [if_neg (by omega)]
  · intro t ht
    constructor <;> simp [Checkout.jumpToStep, ht]
  · intro v hsub
    cases v with
    | false => exact Or.inl hsub
    | true =>
        unfold Checkout.handleNext at hsub
        rw [if_pos rfl] at hsub
        by_cases hlt : s.currentStep < Checkout.stepsLength - 1
        · rw [if_pos hlt] at hsub
          exact Or.inl hsub
        · refine Or.inr ⟨rfl, ?_⟩
          simp [Checkout.stepsLength] at h1 hlt ⊢
          omega

/-- Closed instance of `checkout_step_machine`: after four validated Next
clicks from the start, the form has submitted and step 0 was validated on
the way; all hypotheses are discharged on this concrete run. -/
theorem checkout_step_machine_witness :
    0 ∈ (Checkout.runForm
          [Checkout.FormEvent.next true, Checkout.FormEvent.next true,
           Checkout.FormEvent.next true, Checkout.FormEvent.next true]).validatedSteps :=
  ((checkout_step_machine
      [Checkout.FormEvent.next true, Checkout.FormEvent.next true,
       Checkout.FormEvent.next true, Checkout.FormEvent.next true]
      (Checkout.runForm
        [Checkout.FormEvent.next true, Checkout.FormEvent.next true,
         Checkout.FormEvent.next true, Checkout.FormEvent.next true])
      rfl).2.2.2.2.2.2.2 (by decide) 0 (by decide))

/-- C6 counterexample: on a concrete failing order-creation request the
checkout submission surfaces no message to the form UI — `CheckoutForm`
has no error state and its catch block only logs to the console — so the
claim that a failure is surfaced as a form message is false (while the
error is indeed logged and no success path runs). -/
theorem checkout_failure_counterexample :
    (Checkout.handleSubmit [Checkout.demoItem] Checkout.OrderResponse.httpError).formErrorMessage = none
    ∧ (Checkout.handleSubmit [Checkout.demoItem] Checkout.OrderResponse.httpError).consoleErrorLogged = true :=
  ⟨rfl, rfl⟩

/-- C6 (amended): whenever the order-creation request fails (non-ok
response or thrown error), `onSuccess` and the success redirect do not
occur and no order id is recorded; the failure is only logged to the
console and no error message is surfaced to the form UI. -/
theorem checkout_failure_no_success_path (items : List Cart.CartItem)
    (response : Checkout.OrderResponse) (hfail : Checkout.isFailure response) :
    (Checkout.handleSubmit items response).onSuccessCalled = false
    ∧ (Checkout.handleSubmit items response).redirectedTo = none
    ∧ (Checkout.handleSubmit items response).orderId = none
    ∧ (Checkout.handleSubmit items response).consoleErrorLogged = true
    ∧ (Checkout.handleSubmit items response).formErrorMessage = none := by
  cases hfail with
  | inl h => subst h; exact ⟨rfl, rfl, rfl, rfl, rfl⟩
  | inr h => subst h; exact ⟨rfl, rfl, rfl, rfl, rfl⟩

/-- Closed instance of `checkout_failure_no_success_path` on a concrete
failed request, discharging the failure hypothesis. -/
theorem checkout_failure_no_success_path_witness :
    (Checkout.handleSubmit [Checkout.demoItem] Checkout.OrderResponse.fetchError).onSuccessCalled = false :=
  (checkout_failure_no_success_path [Checkout.demoItem] Checkout.OrderResponse.fetchError (Or.inr rfl)).1

/-- C10: checkout is atomic with respect to the cart — a failing
order-creation request leaves the cart items exactly as they were, a
successful one clears them, and the cart can only have changed when the
request succeeded. -/
theorem checkout_cart_atomicity (items : List Cart.CartItem)
    (response : Checkout.OrderResponse) :
    (Checkout.isFailure response → (Checkout.handleSubmit items response).cartItems = items)
    ∧ (∀ oid, response = Checkout.OrderResponse.ok oid →
        (Checkout.handleSubmit items response).cartItems = [])
    ∧ ((Checkout.handleSubmit items response).cartItems ≠ items →
        ∃ oid, response = Checkout.OrderResponse.ok oid) := by
  refine ⟨?_, ?_, ?_⟩
  · intro hfail
    cases hfail with
    | inl h => subst h; rfl
    | inr h => subst h; rfl
  · intro oid h
    subst h
    rfl
  · intro hne
    cases response with
    | ok oid => exact ⟨oid, rfl⟩
    | httpError => exact absurd rfl hne
    | fetchError => exact absurd rfl hne

/-- Closed instance of `checkout_cart_atomicity`: a concrete failed request
leaves the one-item cart untouched; the failure hypothesis is discharged
explicitly. -/
theorem checkout_cart_atomicity_witness :
    (Checkout.handleSubmit [Checkout.demoItem] Checkout.OrderResponse.httpError).cartItems
      = [Checkout.demoItem] :=
  (checkout_cart_atomicity [Checkout.demoItem] Checkout.OrderResponse.httpError).1 (Or.inl rfl)

namespace Products

/-- A concrete filter input accepted by `productFilterSchema`: `categoryId`
is supplied as the integer `0` (the schema only requires an integer),
everything optional is absent, and the sort/page fields carry the schema
defaults. -/
def zeroCategoryInput : ProductFilterInput :=
  { search := none, categoryId := some 0, brandId := none, minPrice := none,
    maxPrice := none, has3DModel := none, inStock := none,
    sortBy := SortBy.createdAt, sortOrder := SortOrder.desc, page := 1, perPage := 20 }

/-- Lower half of the ceiling characterization of
`Math.ceil(c / n) = (c + n - 1) / n`. -/
theorem ceil_le_mul (c n : Nat) (hn : 1 ≤ n) : c ≤ ((c + n - 1) / n) * n := by
  have h := Nat.div_add_mod (c + n - 1) n
  have hr : (c + n - 1) % n < n := Nat.mod_lt _ (by omega)
  generalize hq : (c + n - 1) / n = q at *
  generalize hrr : (c + n - 1) % n = r at *
  rw [mul_comm]
  omega

/-- Minimality half of the ceiling characterization. -/
theorem ceil_min (c n m : Nat) (hn : 1 ≤ n) (hm : c ≤ m * n) : (c + n - 1) / n ≤ m := by
  rw [Nat.div_le_iff_le_mul_add_pred (by omega)]
  calc c + n - 1 ≤ m * n + n - 1 := by omega
  _ = n * m + (n - 1) := by rw [mul_comm]; omega

end Products

/-- C4 counterexample: the claim that `buildProductQuery` "contains each
filter's clause exactly when that filter is supplied" is false — on the
concrete, schema-valid input that supplies `categoryId: 0`, the builder's
JavaScript truthiness test `if (categoryId)` skips the clause, so the
built WHERE value carries no `categoryId` equality. -/
theorem product_filter_truthiness_counterexample :
    Products.validFilterInput Products.zeroCategoryInput
    ∧ Products.zeroCategoryInput.categoryId = some 0
    ∧ (Products.buildProductQuery Products.zeroCategoryInput).categoryId = none :=
  ⟨by decide, rfl, rfl⟩

/-- C4 (amended): `buildProductQuery` always contains `isActive = true`
(and every row matching the built conjunction is active), and contains
each filter's clause exactly when that filter is supplied with a truthy
value: the search OR-clause when `search` is supplied and non-empty,
equality on `categoryId` / `brandId` when supplied and non-zero, and the
price-bound, 3D-model and stock clauses exactly when the corresponding
field is supplied. -/
theorem product_filter_clauses (input : Products.ProductFilterInput) :
    (Products.buildProductQuery input).isActive = true
    ∧ (∀ p : Products.Product,
        Products.matchesWhere (Products.buildProductQuery input) p = true → p.isActive = true)
    ∧ (∀ s, input.search = some s → s ≠ "" →
        (Products.buildProductQuery input).searchOr = some s)
    ∧ ((input.search = none ∨ input.search = some "") →
        (Products.buildProductQuery input).searchOr = none)
    ∧ (∀ c, input.categoryId = some c → c ≠ 0 →
        (Products.buildProductQuery input).categoryId = some c)
    ∧ ((input.categoryId = none ∨ input.categoryId = some 0) →
        (Products.buildProductQuery input).categoryId = none)
    ∧ (∀ b, input.brandId = some b → b ≠ 0 →
        (Products.buildProductQuery input).brandId = some b)
    ∧ ((input.brandId = none ∨ input.brandId = some 0) →
        (Products.buildProductQuery input).brandId = none)
    ∧ (Products.buildProductQuery input).priceGte = input.minPrice
    ∧ (Products.buildProductQuery input).priceLte = input.maxPrice
    ∧ (Products.buildProductQuery input).model3dNotNull = input.has3DModel
    ∧ (Products.buildProductQuery input).stockPositive = input.inStock := by
  refine ⟨rfl, ?_, ?_, ?_, ?_, ?_, ?_, ?_, rfl, rfl, rfl, rfl⟩
  · intro p h
    simp only [Products.matchesWhere, Bool.and_eq_true, beq_iff_eq] at h
    exact h.1.1.1.1.1.1.1
  · intro s hs hne
    simp [Products.buildProductQuery, hs, hne]
  · intro hcases
    cases hcases with
    | inl h => simp [Products.buildProductQuery, h]
    | inr h => simp [Products.buildProductQuery, h]
  · intro c hc hne
    simp [Products.buildProductQuery, hc, hne]
  · intro hcases
    cases hcases with
    | inl h => simp [Products.buildProductQuery, h]
    | inr h => simp [Products.buildProductQuery, h]
  · intro b hb hne
    simp [Products.buildProductQuery, hb, hne]
  · intro hcases
    cases hcases with
    | inl h => simp [Products.buildProductQuery, h]
    | inr h => simp [Products.buildProductQuery, h]

/-- Closed instance of `product_filter_clauses` on the concrete input with
no search filter, discharging the supplied-or-absent hypothesis. -/
theorem product_filter_clauses_witness :
    (Products.buildProductQuery Products.zeroCategoryInput).searchOr = none :=
  (product_filter_clauses Products.zeroCategoryInput).2.2.2.1 (Or.inl rfl)

/-- C3: `getProducts` paginates as stated — for every schema-valid filter
input it takes at most `perPage` products after skipping exactly
`(page - 1) * perPage` of the sorted matching products; `totalCount` is
the number of matching products; `totalPages` is the ceiling of
`totalCount / perPage` (characterized as the least `m` with
`totalCount ≤ m * perPage`); `hasNextPage` holds exactly when
`page < totalPages`; and `hasPreviousPage` holds exactly when `page > 1`. -/
theorem product_pagination_correct (db : List Products.Product)
    (input : Products.ProductFilterInput) (hvalid : Products.validFilterInput input) :
    (Products.getProducts db input).products =
        ((Products.sortProducts input.sortBy input.sortOrder
            (db.filter (Products.matchesWhere (Products.buildProductQuery input)))).drop
          ((input.page - 1) * input.perPage)).take input.perPage
    ∧ (Products.getProducts db input).products.length ≤ input.perPage
    ∧ (Products.getProducts db input).pagination.totalCount =
        (db.filter (Products.matchesWhere (Products.buildProductQuery input))).length
    ∧ (Products.getProducts db input).pagination.totalCount ≤
        (Products.getProducts db input).pagination.totalPages * input.perPage
    ∧ (∀ m : Nat, (Products.getProducts db input).pagination.totalCount ≤ m * input.perPage →
        (Products.getProducts db input).pagination.totalPages ≤ m)
    ∧ ((Products.getProducts db input).pagination.hasNextPage = true ↔
        input.page < (Products.getProducts db input).pagination.totalPages)
    ∧ ((Products.getProducts db input).pagination.hasPreviousPage = true ↔ 1 < input.page) := by
  obtain ⟨-, -, hpage, hpp1, hpp2⟩ := hvalid
  refine ⟨rfl, ?_, rfl, ?_, ?_, ?_, ?_⟩
  · show (((Products.sortProducts input.sortBy input.sortOrder
        (db.filter (Products.matchesWhere (Products.buildProductQuery input)))).drop
          ((input.page - 1) * input.perPage)).take input.perPage).length ≤ input.perPage
    rw [List.length_take]
    exact min_le_left _ _
  · exact Products.ceil_le_mul _ _ hpp1
  · intro m hm
    exact Products.ceil_min _ _ m hpp1 hm
  · exact decide_eq_true_iff
  · exact decide_eq_true_iff

/-- Closed instance of `product_pagination_correct` on a concrete two-row
table, discharging the schema-validity hypothesis by evaluation: page 1 of
a one-per-page listing has a next page. -/
theorem product_pagination_correct_witness :
    (Products.getProducts
      [{ id := "a", name := "Alpha", description := none, sku := "A-1", price := 5,
         stock := 3, categoryId := none, brandId := none, model3dId := none,
         isActive := true, createdAt := 1, updatedAt := 1 },
       { id := "b", name := "Beta", description := none, sku := "B-1", price := 7,
         stock := 0, categoryId := none, brandId := none, model3dId := none,
         isActive := true, createdAt := 2, updatedAt := 2 }]
      { search := none, categoryId := none, brandId := none, minPrice := none,
        maxPrice := none, has3DModel := none, inStock := none,
        sortBy := Products.SortBy.createdAt, sortOrder := Products.SortOrder.asc,
        page := 1, perPage := 1 }).pagination.hasNextPage = true :=
  (product_pagination_correct
    [{ id := "a", name := "Alpha", description := none, sku := "A-1", price := 5,
       stock := 3, categoryId := none, brandId := none, model3dId := none,
       isActive := true, createdAt := 1, updatedAt := 1 },
     { id := "b", name := "Beta", description := none, sku := "B-1", price := 7,
       stock := 0, categoryId := none, brandId := none, model3dId := none,
       isActive := true, createdAt := 2, updatedAt := 2 }]
    { search := none, categoryId := none, brandId := none, minPrice := none,
      maxPrice := none, has3DModel := none, inStock := none,
      sortBy := Products.SortBy.createdAt, sortOrder := Products.SortOrder.asc,
      page := 1, perPage := 1 }
    (by decide)).2.2.2.2.2.1.mpr (by decide)
